import Mathlib

/-!
Verification of a personal expense-tracker web application.

Backend model: `src/backend/server.js` (Express + Mongoose + JWT).
Client model: the React single-page client (`src/unnamed/part_000`),
in particular its aggregation engine (`timeFilteredExpenses`, `stats`,
`filteredList`) and the form handler `handleSubmit`.

Conventions of the shallow embedding:
* JS numbers that hold monetary amounts are modelled as rationals (`ℚ`).
* Mongo object ids and user ids are modelled as natural numbers; the
  store is a list of records, appended to on insert.  `_id` is a unique
  key in MongoDB, so `findByIdAndDelete` (which removes the single
  document with the given `_id`) is modelled by filtering that id out.
* A JSON request body may omit any field, hence `Option` fields.
* A JWT is modelled by what `jwt.verify` observes of it: either it is
  malformed, or it is a signed envelope carrying a user id, the secret
  it was signed with, and whether it has expired.  `jwt.verify` succeeds
  exactly when the secret matches and the token is not expired.
* A missing `Authorization` header and an empty-string header are both
  falsy in JS (`if (!token)`), so both are modelled as `none`.
* Timestamps on the backend are epoch milliseconds (`Int`); the client
  compares calendar fields (`toDateString`, `getMonth`, `getFullYear`),
  so its dates are modelled as calendar triples.
-/

namespace ExpenseTracker

abbrev UserId := Nat
abbrev ObjId := Nat

/-- The Mongoose `Expense` model (server.js lines 30-38): `userId` is
required; `title`, `amount`, `type`, `category` are optional scalar
fields; `date` defaults to `Date.now` and is therefore always present
on a stored record. -/
structure Expense where
  _id : ObjId
  userId : UserId
  title : Option String
  amount : Option ℚ
  type : Option String
  category : Option String
  date : Int
deriving DecidableEq, Repr

abbrev Db := List Expense

/-- What `jwt.verify` observes of an incoming token. -/
inductive TokenInput where
  | malformed
  | signed (uid : UserId) (secret : String) (expired : Bool)
deriving DecidableEq, Repr

/-- `JWT_SECRET`, defaulting to the literal secret123. -/
def jwtSecret : String := "secret123"

/-- `jwt.verify(token, secret)`: returns the payload when the signature
checks out under `secret` and the token is unexpired; otherwise throws
(modelled as `none`). -/
def jwtVerify (secret : String) (t : TokenInput) : Option UserId :=
  match t with
  | .malformed => none
  | .signed uid s expired => if s = secret ∧ expired = false then some uid else none

/-- An incoming HTTP request, as far as the auth middleware reads it:
the `Authorization` header (`none` = absent or empty string, both falsy). -/
structure Request where
  authHeader : Option TokenInput
deriving DecidableEq, Repr

/-- A JSON response body. -/
inductive Body where
  | error (msg : String)
  | expenses (l : List Expense)
  | expense (e : Expense)
  | message (msg : String)
deriving DecidableEq, Repr

structure HttpResponse where
  status : Nat
  body : Body
deriving DecidableEq, Repr

/-- Outcome of the auth middleware: either it has already answered the
request, or it set `req.user` and called `next()`. -/
inductive AuthResult where
  | reject (status : Nat) (error : String)
  | allow (uid : UserId)
deriving DecidableEq, Repr

/-- `authMiddleware` (server.js lines 91-102): missing token → 401
"Access Denied"; `jwt.verify` failure → 400 "Invalid Token"; success →
`req.user = verified; next()`. -/
def authMiddleware (req : Request) : AuthResult :=
  match req.authHeader with
  | none => .reject 401 "Access Denied"
  | some t =>
    match jwtVerify jwtSecret t with
    | some uid => .allow uid
    | none => .reject 400 "Invalid Token"

/-- Running a protected route: the handler runs only when the middleware
called `next()`; otherwise the error response of the middleware is returned
and the store is untouched. -/
def runProtected (handler : UserId → Db × HttpResponse) (db : Db) (req : Request) :
    Db × HttpResponse :=
  match authMiddleware req with
  | .allow uid => handler uid
  | .reject s e => (db, ⟨s, .error e⟩)

/-- Descending-date order used by `.sort({ date: -1 })`. -/
def dateGe (a b : Expense) : Prop := b.date ≤ a.date

instance : DecidableRel dateGe := fun a b => inferInstanceAs (Decidable (b.date ≤ a.date))

instance : IsTotal Expense dateGe := ⟨fun a b => Int.le_total b.date a.date⟩

instance : IsTrans Expense dateGe := ⟨fun _ _ _ h1 h2 => le_trans h2 h1⟩

/-- `Expense.find({ userId: req.user.id }).sort({ date: -1 })`
(server.js line 105): the records of the caller, most recent first. -/
def listTransactions (db : Db) (uid : UserId) : List Expense :=
  List.insertionSort dateGe (db.filter fun e => e.userId = uid)

/-- `GET /api/expenses` (server.js lines 104-107). -/
def getExpenses (db : Db) (req : Request) : Db × HttpResponse :=
  runProtected (fun uid => (db, ⟨200, .expenses (listTransactions db uid)⟩)) db req

/-- A JSON body for `POST /api/expenses`.  Every field is optional; the
client may even send its own `userId`. -/
structure CreateBody where
  title : Option String
  amount : Option ℚ
  type : Option String
  category : Option String
  date : Option Int
  userId : Option UserId
deriving DecidableEq, Repr

/-- `new Expense({ ...req.body, userId: req.user.id })` followed by
`save()` (server.js lines 110-111): the `userId` entry of the literal comes
after the spread, so the client-supplied `userId` is overridden by the
id of the authenticated caller; the schema default stamps `Date.now` when the
body carries no `date`; no field is validated.  `newId` stands for the
fresh ObjectId, `now` for `Date.now`. -/
def createTransaction (db : Db) (uid : UserId) (body : CreateBody)
    (newId : ObjId) (now : Int) : Expense × Db :=
  let saved : Expense :=
    { _id := newId
      userId := uid
      title := body.title
      amount := body.amount
      type := body.type
      category := body.category
      date := body.date.getD now }
  (saved, db ++ [saved])

/-- `POST /api/expenses` (server.js lines 109-113): responds with the
saved document, status 200. -/
def postExpense (db : Db) (req : Request) (body : CreateBody)
    (newId : ObjId) (now : Int) : Db × HttpResponse :=
  runProtected
    (fun uid =>
      let r := createTransaction db uid body newId now
      (r.2, ⟨200, .expense r.1⟩))
    db req

/-- `Expense.findByIdAndDelete(req.params.id)` (server.js line 116):
removes the document with that `_id` (at most one exists, `_id` being a
unique key); a missing id deletes nothing and raises no error. -/
def deleteTransaction (db : Db) (id : ObjId) : Db :=
  db.filter fun e => e._id ≠ id

/-- `DELETE /api/expenses/:id` (server.js lines 115-118): no ownership
check, always answers `{ message: "Deleted" }`. -/
def deleteExpense (db : Db) (req : Request) (id : ObjId) : Db × HttpResponse :=
  runProtected (fun _ => (deleteTransaction db id, ⟨200, .message "Deleted"⟩)) db req

/-! ## Client model (`src/unnamed/part_000`) -/

namespace Client

/-- A calendar date as the client compares it: `toDateString` equality
is same day-month-year, `getMonth`/`getFullYear` read the components. -/
structure CalDate where
  year : Int
  month : Nat
  day : Nat
deriving DecidableEq, Repr

/-- A transaction as the client holds it after fetching. -/
structure Tx where
  _id : String
  title : String
  amount : ℚ
  type : String
  category : String
  date : CalDate
deriving DecidableEq, Repr

/-- `timeFilteredExpenses` (part_000 lines 416-425): keeps an item when
its date matches the selected range against "now"; any range other than
`daily`/`monthly`/`yearly` (in particular `all`) keeps everything. -/
def timeFilteredExpenses (expenses : List Tx) (now : CalDate) (timeRange : String) :
    List Tx :=
  expenses.filter fun item =>
    if timeRange = "daily" then item.date == now
    else if timeRange = "monthly" then
      item.date.month == now.month && item.date.year == now.year
    else if timeRange = "yearly" then item.date.year == now.year
    else true

/-- The accumulator of the `stats` reduce (part_000 lines 427-439). -/
structure Stats where
  totalBalance : ℚ
  totalIncome : ℚ
  totalExpense : ℚ
  totalInvested : ℚ
  totalWithdrawn : ℚ
deriving DecidableEq, Repr

/-- The initial accumulator of the reduce. -/
def initStats : Stats :=
  { totalBalance := 0, totalIncome := 0, totalExpense := 0
    totalInvested := 0, totalWithdrawn := 0 }

/-- One step of the reduce: the `switch (curr.type)` body.  A type that
is none of the four cases hits `default: break` and leaves the
accumulator unchanged. -/
def statsStep (acc : Stats) (curr : Tx) : Stats :=
  let amt := curr.amount
  if curr.type = "income" then
    { acc with totalIncome := acc.totalIncome + amt
               totalBalance := acc.totalBalance + amt }
  else if curr.type = "expense" then
    { acc with totalExpense := acc.totalExpense + amt
               totalBalance := acc.totalBalance - amt }
  else if curr.type = "investment" then
    { acc with totalInvested := acc.totalInvested + amt
               totalBalance := acc.totalBalance - amt }
  else if curr.type = "withdrawal" then
    { acc with totalWithdrawn := acc.totalWithdrawn + amt
               totalBalance := acc.totalBalance + amt }
  else acc

/-- `stats` = `timeFilteredExpenses.reduce(..., zeros)`. -/
def stats (l : List Tx) : Stats := l.foldl statsStep initStats

/-- `filteredList` (part_000 lines 441-443): the displayed list. -/
def filteredList (expenses : List Tx) (now : CalDate) (timeRange filterCategory : String) :
    List Tx :=
  if filterCategory = "All" then timeFilteredExpenses expenses now timeRange
  else (timeFilteredExpenses expenses now timeRange).filter
    fun e => e.category == filterCategory

/-- The derived view the component renders for a given state: the summary
stats (computed from the time-filtered set only) and the displayed list. -/
def view (expenses : List Tx) (now : CalDate) (timeRange filterCategory : String) :
    Stats × List Tx :=
  (stats (timeFilteredExpenses expenses now timeRange),
   filteredList expenses now timeRange filterCategory)

/-- The add-transaction form state (`formData`): all four fields are
strings coming from controlled inputs. -/
structure FormData where
  title : String
  amount : String
  category : String
  type : String
deriving DecidableEq, Repr

/-- `handleSubmit` (part_000 lines 396-405), composed with the real API
(`api.addExpense` → `POST /api/expenses` as the authenticated `uid`):
when `!formData.title || !formData.amount` (empty strings are falsy) it
returns at once, sending nothing; otherwise it posts the form with
`amount: Number(formData.amount)`.  `toNumber` stands for the JS
`Number` coercion; the behaviour of the guard does not depend on it.
The result is the server store after the submission. -/
def handleSubmit (toNumber : String → ℚ) (form : FormData) (db : ExpenseTracker.Db)
    (uid : ExpenseTracker.UserId) (newId : ExpenseTracker.ObjId) (now : Int) :
    ExpenseTracker.Db :=
  if form.title = "" ∨ form.amount = "" then db
  else
    (ExpenseTracker.createTransaction db uid
      { title := some form.title
        amount := some (toNumber form.amount)
        type := some form.type
        category := some form.category
        date := none
        userId := none } newId now).2

end Client

/-! ## Helper lemmas -/

namespace Client

/-- The balance identity is preserved by one step of the reduce. -/
lemma statsStep_balance (acc : Stats) (t : Tx)
    (h : acc.totalBalance =
      acc.totalIncome + acc.totalWithdrawn - acc.totalExpense - acc.totalInvested) :
    (statsStep acc t).totalBalance =
      (statsStep acc t).totalIncome + (statsStep acc t).totalWithdrawn -
        (statsStep acc t).totalExpense - (statsStep acc t).totalInvested := by
  unfold statsStep
  split_ifs <;> simp <;> rw [h] <;> ring

/-- The balance identity is preserved by the whole reduce. -/
lemma foldl_statsStep_balance (l : List Tx) (acc : Stats)
    (h : acc.totalBalance =
      acc.totalIncome + acc.totalWithdrawn - acc.totalExpense - acc.totalInvested) :
    (l.foldl statsStep acc).totalBalance =
      (l.foldl statsStep acc).totalIncome + (l.foldl statsStep acc).totalWithdrawn -
        (l.foldl statsStep acc).totalExpense - (l.foldl statsStep acc).totalInvested := by
  induction l generalizing acc with
  | nil => exact h
  | cons t rest ih => exact ih _ (statsStep_balance acc t h)

/-- Inserting, anywhere in the input list, a transaction on which the
reduce step is the identity does not change the reduce of the filtered
list. -/
lemma foldl_statsStep_filter_insert (p : Tx → Bool) (l1 l2 : List Tx) (t : Tx)
    (ht : ∀ acc, statsStep acc t = acc) :
    (((l1 ++ t :: l2).filter p).foldl statsStep initStats) =
      (((l1 ++ l2).filter p).foldl statsStep initStats) := by
  rw [List.filter_append, List.filter_append, List.filter_cons]
  by_cases hp : p t = true
  · simp only [hp, if_true]
    rw [List.foldl_append, List.foldl_append, List.foldl_cons, ht]
  · simp [hp]

/-- A transaction whose type hits the default switch branch leaves the
accumulator unchanged. -/
lemma statsStep_of_unknown_type (acc : Stats) (t : Tx)
    (h : t.type ∉ (["income", "expense", "investment", "withdrawal"] : List String)) :
    statsStep acc t = acc := by
  simp only [List.mem_cons, List.not_mem_nil, or_false, not_or] at h
  unfold statsStep
  simp [h.1, h.2.1, h.2.2.1, h.2.2.2]

end Client

/-! ## Claim theorems -/

open Client

/-- Claim C2: for every transaction list and every selected time range,
the aggregates computed by the client aggregation engine satisfy
`totalBalance = totalIncome + totalWithdrawn - totalExpense - totalInvested`. -/
theorem stats_balance_identity (expenses : List Tx) (now : CalDate) (timeRange : String) :
    (stats (timeFilteredExpenses expenses now timeRange)).totalBalance =
      (stats (timeFilteredExpenses expenses now timeRange)).totalIncome +
        (stats (timeFilteredExpenses expenses now timeRange)).totalWithdrawn -
        (stats (timeFilteredExpenses expenses now timeRange)).totalExpense -
        (stats (timeFilteredExpenses expenses now timeRange)).totalInvested :=
  Client.foldl_statsStep_balance _ initStats (by norm_num [initStats])

/-- Claim C8: the time-range filter with range `all` is the identity:
it returns the input list unchanged, regardless of the dates of the
transactions and of the current time. -/
theorem timeFilter_all_identity (expenses : List Tx) (now : CalDate) :
    timeFilteredExpenses expenses now "all" = expenses := by
  unfold timeFilteredExpenses
  norm_num
  intro a _
  split_ifs with h1 h2
  · exact absurd h1 (by decide)
  · exact absurd h2 (by decide)
  · exact Or.inl (by decide)

/-- Claim C9: aggregation over the empty transaction list yields
`totalIncome = totalExpense = totalInvested = totalWithdrawn =
totalBalance = 0` (and an empty displayed list), for every time range
and category selector; being a total function, it raises no error. -/
theorem stats_empty_all_zero (now : CalDate) (timeRange filterCategory : String) :
    (view [] now timeRange filterCategory).1.totalIncome = 0 ∧
    (view [] now timeRange filterCategory).1.totalExpense = 0 ∧
    (view [] now timeRange filterCategory).1.totalInvested = 0 ∧
    (view [] now timeRange filterCategory).1.totalWithdrawn = 0 ∧
    (view [] now timeRange filterCategory).1.totalBalance = 0 ∧
    (view [] now timeRange filterCategory).2 = [] := by
  simp [view, stats, timeFilteredExpenses, filteredList, initStats]

/-- Claim C3: the aggregate totals are computed from the time-filtered
set only and do not change with the category selector; the selector
`All` leaves the displayed list equal to the time-filtered list, and any
other selector keeps exactly the transactions whose category equals it. -/
theorem category_filter_and_aggregates (expenses : List Tx) (now : CalDate)
    (timeRange cat : String) (hcat : cat ≠ "All") :
    (∀ c, (view expenses now timeRange c).1 =
        stats (timeFilteredExpenses expenses now timeRange)) ∧
    (∀ c1 c2, (view expenses now timeRange c1).1 = (view expenses now timeRange c2).1) ∧
    (view expenses now timeRange "All").2 = timeFilteredExpenses expenses now timeRange ∧
    (∀ t, t ∈ (view expenses now timeRange cat).2 ↔
        t ∈ timeFilteredExpenses expenses now timeRange ∧ t.category = cat) := by
  refine ⟨fun c => rfl, fun c1 c2 => rfl, by simp [view, filteredList], ?_⟩
  intro t
  simp [view, filteredList, hcat, List.mem_filter]

/-- Claim C10: a transaction whose type is none of income, expense,
investment, withdrawal hits the default switch branch and contributes to
no aggregate: inserting it anywhere in the input list leaves all five
totals unchanged, for every time range. -/
theorem unknown_type_no_aggregate_effect (l1 l2 : List Tx) (t : Tx) (now : CalDate)
    (timeRange : String)
    (h : t.type ∉ (["income", "expense", "investment", "withdrawal"] : List String)) :
    stats (timeFilteredExpenses (l1 ++ t :: l2) now timeRange) =
      stats (timeFilteredExpenses (l1 ++ l2) now timeRange) := by
  unfold stats timeFilteredExpenses
  exact Client.foldl_statsStep_filter_insert _ l1 l2 t
    (fun acc => Client.statsStep_of_unknown_type acc t h)

/-! Sample data for the closed witness instances. -/

def sampleNow : CalDate := ⟨2026, 9, 11⟩

def txCoffee : Tx := ⟨"id1", "Coffee", 9/2, "expense", "Food", ⟨2026, 9, 10⟩⟩

def txPay : Tx := ⟨"id2", "Paycheck", 2000, "income", "Salary", ⟨2026, 9, 11⟩⟩

def txOther : Tx := ⟨"id3", "Transfer", 7, "transfer", "Misc", ⟨2026, 9, 11⟩⟩

/-- Witness for claim C3 at a concrete list and the selector `Food`. -/
theorem category_filter_and_aggregates_witness :
    (("Food" : String) ≠ "All") ∧
    (txCoffee ∈ (view [txCoffee, txPay] sampleNow "all" "Food").2 ↔
      txCoffee ∈ timeFilteredExpenses [txCoffee, txPay] sampleNow "all" ∧
      txCoffee.category = "Food") :=
  ⟨by decide,
   (category_filter_and_aggregates [txCoffee, txPay] sampleNow "all" "Food"
      (by decide)).2.2.2 txCoffee⟩

/-- Witness for claim C10 at a concrete insertion of a `transfer`-typed
transaction. -/
theorem unknown_type_no_aggregate_effect_witness :
    txOther.type ∉ (["income", "expense", "investment", "withdrawal"] : List String) ∧
    stats (timeFilteredExpenses ([txCoffee] ++ txOther :: [txPay]) sampleNow "all") =
      stats (timeFilteredExpenses ([txCoffee] ++ [txPay]) sampleNow "all") :=
  ⟨by decide,
   unknown_type_no_aggregate_effect [txCoffee] [txPay] txOther sampleNow "all" (by decide)⟩

/-- Claim C1: for every authenticated caller, the list endpoint returns
exactly the transactions whose owner field equals the id of the caller,
ordered by timestamp descending; no transaction owned by a different
user appears. -/
theorem listTransactions_owned_and_sorted (db : Db) (req : Request) (uid : UserId)
    (hauth : authMiddleware req = .allow uid) :
    getExpenses db req = (db, ⟨200, .expenses (listTransactions db uid)⟩) ∧
    (listTransactions db uid).Perm (db.filter fun e => e.userId = uid) ∧
    List.Sorted dateGe (listTransactions db uid) ∧
    (∀ e, e ∈ listTransactions db uid ↔ e ∈ db ∧ e.userId = uid) := by
  refine ⟨?_, ?_, ?_, ?_⟩
  · simp [getExpenses, runProtected, hauth]
  · exact List.perm_insertionSort _ _
  · exact List.sorted_insertionSort _ _
  · intro e
    simp [listTransactions, List.mem_filter]

/-- Claim C6: the delete endpoint always reports success, for every
authenticated caller and every id (a nonexistent id included); the
resulting store is the prior store with the record of that id removed
when present; deleting the same id twice leaves the same store as
deleting it once. -/
theorem deleteExpense_success_and_idempotent (db : Db) (req : Request) (uid : UserId)
    (id : ObjId) (hauth : authMiddleware req = .allow uid) :
    deleteExpense db req id = (deleteTransaction db id, ⟨200, .message "Deleted"⟩) ∧
    (∀ e, e ∈ deleteTransaction db id ↔ e ∈ db ∧ e._id ≠ id) ∧
    deleteExpense (deleteTransaction db id) req id =
      (deleteTransaction db id, ⟨200, .message "Deleted"⟩) := by
  have hroute : ∀ d : Db,
      deleteExpense d req id = (deleteTransaction d id, ⟨200, .message "Deleted"⟩) := by
    intro d
    simp [deleteExpense, runProtected, hauth]
  have hidem : deleteTransaction (deleteTransaction db id) id = deleteTransaction db id := by
    unfold deleteTransaction
    apply List.filter_eq_self.mpr
    intro e he
    exact (List.mem_filter.mp he).2
  refine ⟨hroute db, ?_, ?_⟩
  · intro e
    simp [deleteTransaction, List.mem_filter]
  · rw [hroute, hidem]

/-- Claim C7: the stored transaction has owner equal to the id of the
authenticated caller, for every request body — a body carrying its own
`userId` field included (the spread is overridden by the literal field). -/
theorem createTransaction_owner_from_caller (db : Db) (req : Request) (uid : UserId)
    (body : CreateBody) (newId : ObjId) (now : Int)
    (hauth : authMiddleware req = .allow uid) :
    postExpense db req body newId now =
      (db ++ [(createTransaction db uid body newId now).1],
       ⟨200, .expense (createTransaction db uid body newId now).1⟩) ∧
    (createTransaction db uid body newId now).1.userId = uid := by
  constructor
  · simp [postExpense, runProtected, hauth, createTransaction]
  · rfl

/-! Sample backend data for the closed witness instances. -/

def sampleReq : Request := ⟨some (.signed 7 jwtSecret false)⟩

def expCoffee : Expense := ⟨1, 7, some "Coffee", some (9/2), some "expense", some "Food", 100⟩

def expPay : Expense := ⟨2, 7, some "Paycheck", some 2000, some "income", some "Salary", 200⟩

def expRent : Expense := ⟨3, 9, some "Rent", some 800, some "expense", some "Housing", 150⟩

def sampleDb : Db := [expCoffee, expPay, expRent]

def emptyBody : CreateBody := ⟨none, none, none, none, none, none⟩

def bodyWithOwner : CreateBody :=
  ⟨some "Coffee", some (9/2), some "expense", some "Food", none, some 99⟩

/-- Witness for claim C1 at a concrete store and caller 7. -/
theorem listTransactions_owned_and_sorted_witness :
    getExpenses sampleDb sampleReq =
      (sampleDb, ⟨200, .expenses (listTransactions sampleDb 7)⟩) ∧
    (listTransactions sampleDb 7).Perm (sampleDb.filter fun e => e.userId = 7) ∧
    List.Sorted dateGe (listTransactions sampleDb 7) ∧
    (∀ e, e ∈ listTransactions sampleDb 7 ↔ e ∈ sampleDb ∧ e.userId = 7) :=
  listTransactions_owned_and_sorted sampleDb sampleReq 7 (by decide)

/-- Witness for claim C6 at a concrete store, caller 7 and the id 3
(and, through the quantified id, a nonexistent one as well). -/
theorem deleteExpense_success_and_idempotent_witness :
    deleteExpense sampleDb sampleReq 3 =
      (deleteTransaction sampleDb 3, ⟨200, .message "Deleted"⟩) ∧
    (∀ e, e ∈ deleteTransaction sampleDb 3 ↔ e ∈ sampleDb ∧ e._id ≠ 3) ∧
    deleteExpense (deleteTransaction sampleDb 3) sampleReq 3 =
      (deleteTransaction sampleDb 3, ⟨200, .message "Deleted"⟩) :=
  deleteExpense_success_and_idempotent sampleDb sampleReq 7 3 (by decide)

/-- Witness for claim C7 at a body that carries its own `userId` (99),
stored nevertheless under the caller id 7. -/
theorem createTransaction_owner_from_caller_witness :
    postExpense sampleDb sampleReq bodyWithOwner 4 300 =
      (sampleDb ++ [(createTransaction sampleDb 7 bodyWithOwner 4 300).1],
       ⟨200, .expense (createTransaction sampleDb 7 bodyWithOwner 4 300).1⟩) ∧
    (createTransaction sampleDb 7 bodyWithOwner 4 300).1.userId = 7 :=
  createTransaction_owner_from_caller sampleDb sampleReq 7 bodyWithOwner 4 300 (by decide)

/-- The code refutes claim C4: a create request with both title and
amount missing is not rejected with a validation error — the server
answers status 200 and a new record is stored. -/
theorem create_missing_fields_counterexample :
    (postExpense [] sampleReq emptyBody 1 0).2.status = 200 ∧
    (postExpense [] sampleReq emptyBody 1 0).1.length = 1 := by
  decide

/-- Claim C4 amended: the server performs no validation — a create
request succeeds with status 200 and stores one more record even when
title or amount is missing; the client form handler, however, returns
without issuing a request when the title or the amount field is empty,
so no record is created through the form. -/
theorem create_no_validation_and_client_guard (db : Db) (req : Request) (uid : UserId)
    (body : CreateBody) (newId : ObjId) (now : Int) (toNumber : String → ℚ)
    (form : FormData)
    (hauth : authMiddleware req = .allow uid)
    (hform : form.title = "" ∨ form.amount = "") :
    (postExpense db req body newId now).2.status = 200 ∧
    (postExpense db req body newId now).1.length = db.length + 1 ∧
    Client.handleSubmit toNumber form db uid newId now = db := by
  refine ⟨?_, ?_, ?_⟩
  · simp [postExpense, runProtected, hauth]
  · simp [postExpense, runProtected, hauth, createTransaction]
  · unfold Client.handleSubmit
    rw [if_pos hform]

/-- Witness for the amended claim C4: an empty body is accepted by the
server, while the form with an empty title sends nothing. -/
theorem create_no_validation_and_client_guard_witness :
    (postExpense sampleDb sampleReq emptyBody 4 300).2.status = 200 ∧
    (postExpense sampleDb sampleReq emptyBody 4 300).1.length = sampleDb.length + 1 ∧
    Client.handleSubmit (fun _ => 3) ⟨"", "3", "Food", "expense"⟩ sampleDb 7 4 300 =
      sampleDb :=
  create_no_validation_and_client_guard sampleDb sampleReq 7 emptyBody 4 300
    (fun _ => 3) ⟨"", "3", "Food", "expense"⟩ (by decide) (Or.inl rfl)

/-- The code refutes claim C5: a request whose token is malformed is
rejected with status 400, not 401. -/
theorem invalid_token_status_counterexample :
    (getExpenses [] ⟨some .malformed⟩).2.status = 400 ∧
    (getExpenses [] ⟨some .malformed⟩).2.status ≠ 401 := by
  decide

/-- Claim C5 amended: a request with a missing (or empty) token is
rejected with 401 and an error body; a request whose token fails
verification (malformed, wrongly signed, or expired) is rejected with
400 and an error body; in both cases the protected handler is never
reached — the result is the middleware error response for every handler
— and the store is unchanged. -/
theorem auth_gate_rejection (db : Db) (req : Request) (t : TokenInput)
    (handler : UserId → Db × HttpResponse)
    (ht : req.authHeader = some t) (hv : jwtVerify jwtSecret t = none) :
    runProtected handler db req = (db, ⟨400, .error "Invalid Token"⟩) ∧
    runProtected handler db ⟨none⟩ = (db, ⟨401, .error "Access Denied"⟩) := by
  constructor
  · simp [runProtected, authMiddleware, ht, hv]
  · rfl

/-- Witness for the amended claim C5 at an expired token and a concrete
handler. -/
theorem auth_gate_rejection_witness :
    runProtected (fun _ => ([], ⟨200, .message "ok"⟩)) sampleDb
        ⟨some (.signed 7 jwtSecret true)⟩ =
      (sampleDb, ⟨400, .error "Invalid Token"⟩) ∧
    runProtected (fun _ => ([], ⟨200, .message "ok"⟩)) sampleDb ⟨none⟩ =
      (sampleDb, ⟨401, .error "Access Denied"⟩) :=
  auth_gate_rejection sampleDb ⟨some (.signed 7 jwtSecret true)⟩
    (.signed 7 jwtSecret true) (fun _ => ([], ⟨200, .message "ok"⟩)) rfl (by decide)

end ExpenseTracker
